import Mathlib

/-!
Verification of the Cart / Checkout / Order / Manual-Payment / Enrollment
workflow of the Pardis repository.

The repository ships the data-integrity layer of this workflow as SQL
verification queries (embedded in fix-encoding.js and in
payment-debug-queries.sql); those queries are translated here directly.
The entity and handler code itself (Cart, Order, PaymentAttempt,
CreateCheckoutHandler, the admin-approval transition) is not part of the
source tree, so those operations are modelled from the specification, as
marked in each doc comment.
-/

namespace Pardis

/-- Status decode for PaymentAttempts rows, translated from the CASE
expression in payment-debug-queries.sql: codes 0-7 name the states
Draft, PendingPayment, AwaitingReceiptUpload, AwaitingAdminApproval,
Paid, Failed, Expired, Refunded; any other code is unnamed. -/
def statusName : Nat → Option String
  | 0 => some "Draft"
  | 1 => some "PendingPayment"
  | 2 => some "AwaitingReceiptUpload"
  | 3 => some "AwaitingAdminApproval"
  | 4 => some "Paid"
  | 5 => some "Failed"
  | 6 => some "Expired"
  | 7 => some "Refunded"
  | _ => none

/-- Valid-status predicate from the verification SQL in fix-encoding.js
(both the grouped validity report and the invalid-status error check):
a persisted status is valid exactly when it is in (0, 1, 3, 4, 5). -/
def validStatus (s : Nat) : Bool :=
  s == 0 || s == 1 || s == 3 || s == 4 || s == 5

/-- Column subset of the PaymentAttempts table consulted by the
verification queries in fix-encoding.js. A SQL NULL column is `none`;
an empty-string column is `some ""` (which is NOT NULL in SQL). -/
structure PaymentAttemptRow where
  status : Nat
  method : Nat
  receiptImageUrl : Option String
  adminReviewedBy : Option String
  deriving DecidableEq

/-- Error check from the verification SQL in fix-encoding.js: a row is
flagged when ReceiptImageUrl IS NOT NULL AND Status is none of 3, 4, 5. -/
def receiptStatusError (r : PaymentAttemptRow) : Bool :=
  r.receiptImageUrl.isSome && !(r.status == 3) && !(r.status == 4) && !(r.status == 5)

/-- Error check from the verification SQL in fix-encoding.js: a row is
flagged when Status = 4 (Paid) AND AdminReviewedBy IS NULL. -/
def paidWithoutReviewerError (r : PaymentAttemptRow) : Bool :=
  r.status == 4 && r.adminReviewedBy.isNone

/-- Business-logic count from the verification SQL in fix-encoding.js:
rows with Status = 1 whose receipt is NULL or the empty string still
require a receipt upload. -/
def pendingReceiptUpload (r : PaymentAttemptRow) : Bool :=
  r.status == 1 && (r.receiptImageUrl.isNone || r.receiptImageUrl == some "")

/-- Modelled from the spec: the workflow error taxonomy of section 7.
The entity and handler code carrying these errors is not under the
source tree; the constructors follow the named failure cases of
sections 4.1, 4.2 and 7. -/
inductive WorkflowError where
  | courseNotFound
  | courseNotPublished
  | duplicateCartItem
  | alreadyEnrolled
  | emptyCart
  | cartExpired
  | priceDrift
  | idempotencyConflict
  | integrityViolation
  | storageFailure
  deriving DecidableEq

/-- Modelled from the spec: the four handling classes of section 7 for
workflow errors (validation reported to the caller, conflicts resolved
internally, integrity violations fatal, storage failures retryable). -/
inductive ErrSeverity where
  | reportToCaller
  | resolveInternally
  | fatal
  | retryable
  deriving DecidableEq

/-- Modelled from the spec: the severity classification of section 7.
Validation errors are reported to the caller; the idempotency-race
conflict is resolved internally; an IntegrityViolation is
programming-fatal; a storage failure is retryable. -/
def severity : WorkflowError → ErrSeverity
  | .idempotencyConflict => .resolveInternally
  | .integrityViolation => .fatal
  | .storageFailure => .retryable
  | _ => .reportToCaller

/-- Modelled from the spec: the value snapshot of a course captured at
the time a course is added to a cart (section 3, CartItem). -/
structure CourseSnapshot where
  title : String
  thumbnail : String
  instructorName : String
  price : Nat
  deriving DecidableEq

/-- Modelled from the spec: the live course record consulted by
addCourse (identifier, snapshot fields, published flag). -/
structure Course where
  id : Nat
  title : String
  thumbnail : String
  instructorName : String
  price : Nat
  published : Bool
  deriving DecidableEq

/-- Modelled from the spec: a cart item holding the course identifier
and the snapshot captured at the time of addition (section 3). -/
structure CartItem where
  courseId : Nat
  snapshot : CourseSnapshot
  deriving DecidableEq

/-- Modelled from the spec: a cart with its owner, ordered items and
expiry timestamp (section 3). -/
structure Cart where
  id : Nat
  userId : Nat
  items : List CartItem
  expiresAt : Nat
  deriving DecidableEq

/-- Modelled from the spec: a durable course-access grant for a
(user, course) pair (section 3, CourseEnrollment). -/
structure Enrollment where
  userId : Nat
  courseId : Nat
  active : Bool
  deriving DecidableEq

/-- Modelled from the spec: the duplicate-enrollment guard consults the
store for an existing active enrollment for the (user, course) pair
(section 4.4). -/
def enrolled (es : List Enrollment) (u c : Nat) : Bool :=
  es.any (fun e => e.userId == u && e.courseId == c && e.active)

/-- Number of active enrollments held for a (user, course) pair. -/
def countActive : List Enrollment → Nat → Nat → Nat
  | [], _, _ => 0
  | e :: tl, u, c =>
      (if e.userId == u && e.courseId == c && e.active then 1 else 0) + countActive tl u c

/-- Modelled from the spec: the catalog and enrollment context read by
the cart operations (course lookup and the already-enrolled check of
section 4.1). -/
structure Catalog where
  courses : List Course
  enrollments : List Enrollment
  deriving DecidableEq

/-- Modelled from the spec: the snapshot capture performed when a
course is added to a cart (section 4.1): the CartItem copies title,
thumbnail, instructor and price from the live course record at that
moment. -/
def snapshotItem (course : Course) : CartItem :=
  { courseId := course.id
    snapshot :=
      { title := course.title
        thumbnail := course.thumbnail
        instructorName := course.instructorName
        price := course.price } }

/-- Modelled from the spec: addCourse of section 4.1. It fails with
courseNotFound when the course does not exist, courseNotPublished when
it is not publicly purchasable, duplicateCartItem when the course is
already in the cart, alreadyEnrolled when the user already holds an
active enrollment; on success it appends a CartItem with a freshly
captured snapshot. -/
def addCourse (ctx : Catalog) (cart : Cart) (courseId : Nat) : Except WorkflowError Cart :=
  match ctx.courses.find? (fun c => c.id == courseId) with
  | none => Except.error WorkflowError.courseNotFound
  | some course =>
      if !course.published then
        Except.error WorkflowError.courseNotPublished
      else if cart.items.any (fun it => it.courseId == courseId) then
        Except.error WorkflowError.duplicateCartItem
      else if enrolled ctx.enrollments cart.userId courseId then
        Except.error WorkflowError.alreadyEnrolled
      else
        Except.ok { cart with items := cart.items ++ [snapshotItem course] }

/-- Number of cart items carrying a given course identifier. -/
def countCourse (cart : Cart) (courseId : Nat) : Nat :=
  (cart.items.filter (fun it => it.courseId == courseId)).length

/-- Modelled from the spec: removeCourse of section 4.1 removes the
matching item and is a no-op when the course is absent. -/
def removeCourse (cart : Cart) (courseId : Nat) : Cart :=
  { cart with items := cart.items.filter (fun it => !(it.courseId == courseId)) }

/-- Modelled from the spec: validateForCheckout of section 4.1. It
fails with emptyCart, cartExpired, or priceDrift (when a live course
price differs from the cached snapshot by more than the tolerance; the
reference behavior blocks). -/
def validateForCheckout (cart : Cart) (now : Nat) (livePrice : Nat → Option Nat)
    (tolerance : Nat) : Except WorkflowError Unit :=
  if cart.items.isEmpty then Except.error WorkflowError.emptyCart
  else if cart.expiresAt ≤ now then Except.error WorkflowError.cartExpired
  else if cart.items.any (fun it =>
      match livePrice it.courseId with
      | some p => decide (tolerance < Nat.dist p it.snapshot.price)
      | none => false) then
    Except.error WorkflowError.priceDrift
  else Except.ok ()

/-- Modelled from the spec: Order status, kept in lockstep with the
payment attempts of the order (section 3); a fresh checkout persists
the order as pendingPayment. -/
inductive OrderStatus where
  | pendingPayment
  | paid
  | failed
  | expired
  deriving DecidableEq, BEq

/-- Modelled from the spec: an Order as created by checkout (section 3):
the cart reference, the immutable snapshot of the cart items, the
idempotency key, the total and the status. -/
structure Order where
  id : Nat
  cartId : Nat
  userId : Nat
  idempotencyKey : String
  snapshot : List CartItem
  total : Nat
  status : OrderStatus
  deriving DecidableEq

/-- Modelled from the spec: the total of a list of cart items computed
from the snapshot prices (section 4.2: never recomputed from live
course prices). -/
def cartTotal (items : List CartItem) : Nat :=
  (items.map (fun it => it.snapshot.price)).sum

/-- Modelled from the spec: Order construction (sections 3 and 4.2).
The cart-reference field is asserted non-empty (non-zero) before
commit; a violation is the programming-fatal integrityViolation, not a
recoverable error. On success the order carries the snapshot, the
total computed from snapshot prices, and status pendingPayment. -/
def Order.create (id cartId userId : Nat) (key : String) (items : List CartItem) :
    Except WorkflowError Order :=
  if cartId = 0 then Except.error WorkflowError.integrityViolation
  else
    Except.ok
      { id := id
        cartId := cartId
        userId := userId
        idempotencyKey := key
        snapshot := items
        total := cartTotal items
        status := OrderStatus.pendingPayment }

/-- Modelled from the spec: the order store consulted by checkout, with
a counter supplying fresh order identifiers. -/
structure Store where
  orders : List Order
  nextId : Nat
  deriving DecidableEq

/-- Modelled from the spec: the lookup of an existing order for
(user, idempotencyKey) performed by createCheckout (section 4.2); only
a not-expired order is replayed. -/
def findExisting (orders : List Order) (userId : Nat) (key : String) : Option Order :=
  orders.find? (fun o =>
    o.userId == userId && o.idempotencyKey == key && !(o.status == OrderStatus.expired))

/-- Modelled from the spec: createCheckout of section 4.2, taking a
cart that has passed validateForCheckout. If a not-expired order
already exists for (user, idempotencyKey) it is returned unchanged
(idempotent replay) and the store is untouched; otherwise a new order
is created from the cart snapshot and persisted. -/
def createCheckout (st : Store) (cart : Cart) (key : String) :
    Except WorkflowError (Order × Store) :=
  match findExisting st.orders cart.userId key with
  | some o => Except.ok (o, st)
  | none =>
      match Order.create st.nextId cart.id cart.userId key cart.items with
      | Except.error e => Except.error e
      | Except.ok o =>
          Except.ok (o, { orders := o :: st.orders, nextId := st.nextId + 1 })

/-- Modelled from the spec: the closed tagged variant of PaymentAttempt
statuses (section 4.3); the codes of the decode table in
payment-debug-queries.sql name exactly these eight states. -/
inductive PaStatus where
  | draft
  | pendingPayment
  | awaitingReceiptUpload
  | awaitingAdminApproval
  | paid
  | failed
  | expired
  | refunded
  deriving DecidableEq

/-- Numeric code of a PaymentAttempt status, matching the decode table
of payment-debug-queries.sql. -/
def PaStatus.code : PaStatus → Nat
  | .draft => 0
  | .pendingPayment => 1
  | .awaitingReceiptUpload => 2
  | .awaitingAdminApproval => 3
  | .paid => 4
  | .failed => 5
  | .expired => 6
  | .refunded => 7

/-- Modelled from the spec: the receipt data set together by a receipt
upload (image reference, filename, upload timestamp; section 4.3). -/
structure Receipt where
  imageRef : String
  fileName : String
  uploadedAt : Nat
  deriving DecidableEq

/-- Modelled from the spec: a PaymentAttempt entity (section 3): owning
order and user, amount, status, receipt data, admin reviewer and
decision. The method is fixed to manual in this workflow. -/
structure PaymentAttempt where
  orderId : Nat
  userId : Nat
  amount : Nat
  status : PaStatus
  receipt : Option Receipt
  adminReviewer : Option String
  adminDecision : Option String
  deriving DecidableEq

/-- Modelled from the spec: a fresh PaymentAttempt created when a user
initiates payment for an order, before any receipt or admin data. -/
def PaymentAttempt.init (orderId userId amount : Nat) : PaymentAttempt :=
  { orderId := orderId
    userId := userId
    amount := amount
    status := PaStatus.draft
    receipt := none
    adminReviewer := none
    adminDecision := none }

/-- Modelled from the spec: the events of the PaymentAttempt state
machine (section 4.3): starting the payment, uploading a receipt,
admin approval or rejection, lazy expiry, and refund. -/
inductive PaEvent where
  | startPayment
  | uploadReceipt (imageRef fileName : Option String) (uploadedAt : Option Nat)
  | approveBy (reviewer : Option String)
  | rejectBy (reviewer reason : Option String)
  | expire
  | refund
  deriving DecidableEq

/-- Modelled from the spec: the guarded transition function of the
PaymentAttempt state machine (section 4.3). A receipt upload requires
image, filename and timestamp set together and rejects partial
uploads; approval requires the admin reviewer identifier; rejection
requires reviewer and reason; expiry applies to the pendingPayment,
awaitingReceiptUpload and awaitingAdminApproval states; refund applies
only to paid. A guard failure returns none and the attempt is
unchanged. -/
def paStep (pa : PaymentAttempt) (e : PaEvent) : Option PaymentAttempt :=
  match e with
  | .startPayment =>
      if pa.status = PaStatus.draft then
        some { pa with status := PaStatus.pendingPayment }
      else none
  | .uploadReceipt imageRef fileName uploadedAt =>
      if pa.status = PaStatus.pendingPayment then
        match imageRef, fileName, uploadedAt with
        | some i, some f, some t =>
            some { pa with
                    status := PaStatus.awaitingAdminApproval
                    receipt := some { imageRef := i, fileName := f, uploadedAt := t } }
        | _, _, _ => none
      else none
  | .approveBy reviewer =>
      if pa.status = PaStatus.awaitingAdminApproval then
        match reviewer with
        | some r =>
            some { pa with status := PaStatus.paid, adminReviewer := some r }
        | none => none
      else none
  | .rejectBy reviewer reason =>
      if pa.status = PaStatus.awaitingAdminApproval then
        match reviewer, reason with
        | some r, some d =>
            some { pa with
                    status := PaStatus.failed
                    adminReviewer := some r
                    adminDecision := some d }
        | _, _ => none
      else none
  | .expire =>
      if pa.status = PaStatus.pendingPayment ∨ pa.status = PaStatus.awaitingReceiptUpload
          ∨ pa.status = PaStatus.awaitingAdminApproval then
        some { pa with status := PaStatus.expired }
      else none
  | .refund =>
      if pa.status = PaStatus.paid then
        some { pa with status := PaStatus.refunded }
      else none

/-- A PaymentAttempt reachable from a fresh attempt through the guarded
transition function. -/
inductive ReachablePa : PaymentAttempt → Prop where
  | init (orderId userId amount : Nat) :
      ReachablePa (PaymentAttempt.init orderId userId amount)
  | step (pa pa' : PaymentAttempt) (e : PaEvent) :
      ReachablePa pa → paStep pa e = some pa' → ReachablePa pa'

/-- Modelled from the spec: insert an enrollment for (user, course)
unless an active one already exists; the duplicate-enrollment guard of
section 4.4 makes the insert a no-op in that case. -/
def ensureEnrollment (es : List Enrollment) (u c : Nat) : List Enrollment :=
  if enrolled es u c then es
  else es ++ [{ userId := u, courseId := c, active := true }]

/-- Modelled from the spec: enrollment creation for every course of the
order snapshot, each insert guarded against duplicates (section 4.4). -/
def enrollAll (u : Nat) : List Enrollment → List Nat → List Enrollment
  | es, [] => es
  | es, c :: cs => enrollAll u (ensureEnrollment es u c) cs

/-- Modelled from the spec: the state touched by an admin approval: the
payment attempt, the course identifiers of its order, and the
enrollment store (sections 4.4 and 5). -/
structure WorkflowState where
  attempt : PaymentAttempt
  courseIds : List Nat
  enrollments : List Enrollment
  deriving DecidableEq

/-- Modelled from the spec: the outcome of an admin approval: approved,
a no-op returning the already-settled result (the compare-and-swap
loser of section 5), or a rejected call missing the reviewer. -/
inductive ApproveResult where
  | approved
  | alreadySettled
  | invalidInput
  deriving DecidableEq

/-- Modelled from the spec: the admin approval operation (sections 4.3,
4.4 and 5). It is a compare-and-swap on the attempt status: if the
attempt already left awaitingAdminApproval the call is a no-op on an
unchanged state; a missing reviewer leaves the state unchanged;
otherwise, in one transaction, the attempt becomes paid with the
reviewer recorded and an enrollment is ensured for every course of the
order, each guarded against duplicates. -/
def adminApprove (st : WorkflowState) (reviewer : Option String) :
    ApproveResult × WorkflowState :=
  if st.attempt.status = PaStatus.awaitingAdminApproval then
    match reviewer with
    | some r =>
        (ApproveResult.approved,
          { attempt := { st.attempt with
                          status := PaStatus.paid
                          adminReviewer := some r }
            courseIds := st.courseIds
            enrollments := enrollAll st.attempt.userId st.enrollments st.courseIds })
    | none => (ApproveResult.invalidInput, st)
  else (ApproveResult.alreadySettled, st)

/-- C1: for every persisted Order the cart-reference identifier is
non-zero; the check is enforced at construction time, and a violation
is the programming-fatal integrityViolation (severity fatal), not a
recoverable (retryable) error. -/
theorem order_cartId_invariant (id cartId userId : Nat) (key : String)
    (items : List CartItem) :
    (∀ o : Order, Order.create id cartId userId key items = Except.ok o → o.cartId ≠ 0) ∧
    (cartId = 0 →
      Order.create id cartId userId key items = Except.error WorkflowError.integrityViolation) ∧
    severity WorkflowError.integrityViolation = ErrSeverity.fatal ∧
    severity WorkflowError.integrityViolation ≠ ErrSeverity.retryable := by
  refine ⟨?_, ?_, rfl, by decide⟩
  · intro o h
    unfold Order.create at h
    split at h
    · exact absurd h (by simp)
    · next hne =>
        cases h
        exact hne
  · intro h0
    simp [Order.create, h0]

/-- Concrete order produced by a successful construction, used by the
witness of order_cartId_invariant. -/
def demoOrder : Order :=
  { id := 9
    cartId := 7
    userId := 2
    idempotencyKey := "k"
    snapshot := []
    total := 0
    status := OrderStatus.pendingPayment }

/-- Witness for C1: a successful construction yields a non-zero cart
reference, and construction with cart identifier 0 is the fatal
integrity violation. -/
theorem order_cartId_invariant_witness :
    demoOrder.cartId ≠ 0 ∧
    Order.create 1 0 2 "k" [] = Except.error WorkflowError.integrityViolation ∧
    severity WorkflowError.integrityViolation = ErrSeverity.fatal :=
  ⟨(order_cartId_invariant 9 7 2 "k" []).1 demoOrder rfl,
   (order_cartId_invariant 1 0 2 "k" []).2.1 rfl,
   (order_cartId_invariant 1 0 2 "k" []).2.2.1⟩

/-- C3 counterexample: the decode table of payment-debug-queries.sql
names status 6 Expired and status 7 Refunded (and status 2
AwaitingReceiptUpload), yet the validity check of fix-encoding.js
flags exactly these codes as invalid statuses — so Expired and
Refunded are not legal persisted statuses of the verified workflow,
contradicting the claim that the machine reaches them. -/
theorem expired_refunded_flagged_invalid :
    statusName PaStatus.expired.code = some "Expired" ∧
    statusName PaStatus.refunded.code = some "Refunded" ∧
    statusName PaStatus.awaitingReceiptUpload.code = some "AwaitingReceiptUpload" ∧
    validStatus PaStatus.expired.code = false ∧
    validStatus PaStatus.refunded.code = false ∧
    validStatus PaStatus.awaitingReceiptUpload.code = false :=
  ⟨rfl, rfl, rfl, rfl, rfl, rfl⟩

/-- C3 (amended): the status decode enumerates exactly the eight
named states with codes 0 to 7, but the data-integrity validation of
the workflow accepts only the statuses 0, 1, 3, 4 and 5 (Draft,
PendingPayment, AwaitingAdminApproval, Paid, Failed). -/
theorem status_domain_and_validity :
    statusName 0 = some "Draft" ∧
    statusName 1 = some "PendingPayment" ∧
    statusName 2 = some "AwaitingReceiptUpload" ∧
    statusName 3 = some "AwaitingAdminApproval" ∧
    statusName 4 = some "Paid" ∧
    statusName 5 = some "Failed" ∧
    statusName 6 = some "Expired" ∧
    statusName 7 = some "Refunded" ∧
    (∀ n : Nat, statusName (n + 8) = none) ∧
    (∀ st : PaStatus, (statusName st.code).isSome = true) ∧
    (∀ s : Nat, validStatus s = true ↔ (s = 0 ∨ s = 1 ∨ s = 3 ∨ s = 4 ∨ s = 5)) := by
  refine ⟨rfl, rfl, rfl, rfl, rfl, rfl, rfl, rfl, fun n => rfl,
    fun st => by cases st <;> rfl, fun s => ?_⟩
  simp only [validStatus, Bool.or_eq_true, beq_iff_eq]
  tauto

/-- C10: a row passing the receipt/status error check of the
verification SQL has its receipt only in the statuses decoded as
AwaitingAdminApproval, Paid or Failed; in particular a row still in
PendingPayment (status 1) carries no receipt reference at all. -/
theorem receipt_status_consistency (r : PaymentAttemptRow) :
    receiptStatusError r = false →
    ((r.receiptImageUrl.isSome = true → r.status = 3 ∨ r.status = 4 ∨ r.status = 5) ∧
     (r.status = 1 → r.receiptImageUrl = none)) ∧
    statusName 3 = some "AwaitingAdminApproval" ∧
    statusName 4 = some "Paid" ∧
    statusName 5 = some "Failed" ∧
    statusName 1 = some "PendingPayment" := by
  intro h
  refine ⟨⟨?_, ?_⟩, rfl, rfl, rfl, rfl⟩
  · intro hs
    by_contra hc
    push_neg at hc
    obtain ⟨h3, h4, h5⟩ := hc
    simp [receiptStatusError, hs, h3, h4, h5] at h
  · intro h1
    cases hr : r.receiptImageUrl with
    | none => rfl
    | some v => simp [receiptStatusError, hr, h1] at h

/-- Concrete PaymentAttempts row used by the witness of
receipt_status_consistency. -/
def demoRow : PaymentAttemptRow :=
  { status := 3
    method := 2
    receiptImageUrl := some "receipt.png"
    adminReviewedBy := none }

/-- Witness for C10: a receipt-bearing row in status 3 passes the error
check and the theorem places its status among 3, 4, 5. -/
theorem receipt_status_consistency_witness :
    receiptStatusError demoRow = false ∧
    (demoRow.status = 3 ∨ demoRow.status = 4 ∨ demoRow.status = 5) :=
  ⟨by decide, (receipt_status_consistency demoRow (by decide)).1.1 (by decide)⟩

/-- Every reachable PaymentAttempt satisfies the receipt and reviewer
invariants: awaitingAdminApproval implies a receipt is present, and
paid implies an admin reviewer is recorded. -/
theorem reachable_inv (pa : PaymentAttempt) (h : ReachablePa pa) :
    (pa.status = PaStatus.awaitingAdminApproval → pa.receipt.isSome = true) ∧
    (pa.status = PaStatus.paid → pa.adminReviewer.isSome = true) := by
  induction h with
  | init orderId userId amount =>
      constructor <;> intro hc <;> simp [PaymentAttempt.init] at hc
  | step pa pa' e hr hstep ih =>
      cases e with
      | startPayment =>
          simp only [paStep] at hstep
          split at hstep
          · cases hstep
            constructor <;> intro hc <;> simp at hc
          · cases hstep
      | uploadReceipt imageRef fileName uploadedAt =>
          simp only [paStep] at hstep
          split at hstep
          · split at hstep
            · cases hstep
              constructor <;> intro hc
              · simp
              · simp at hc
            · cases hstep
          · cases hstep
      | approveBy reviewer =>
          simp only [paStep] at hstep
          split at hstep
          · split at hstep
            · cases hstep
              constructor <;> intro hc
              · simp at hc
              · simp
            · cases hstep
          · cases hstep
      | rejectBy reviewer reason =>
          simp only [paStep] at hstep
          split at hstep
          · split at hstep
            · cases hstep
              constructor <;> intro hc <;> simp at hc
            · cases hstep
          · cases hstep
      | expire =>
          simp only [paStep] at hstep
          split at hstep
          · cases hstep
            constructor <;> intro hc <;> simp at hc
          · cases hstep
      | refund =>
          simp only [paStep] at hstep
          split at hstep
          · cases hstep
            constructor <;> intro hc <;> simp at hc
          · cases hstep

/-- C4: every reachable PaymentAttempt in status awaitingAdminApproval
holds a non-null receipt reference, and over any collection of
reachable attempts the violating-rows filter is empty. -/
theorem awaitingApproval_receipt_nonnull :
    (∀ pa : PaymentAttempt, ReachablePa pa →
        pa.status = PaStatus.awaitingAdminApproval → pa.receipt.isSome = true) ∧
    (∀ pas : List PaymentAttempt, (∀ pa ∈ pas, ReachablePa pa) →
        pas.filter (fun pa =>
          decide (pa.status = PaStatus.awaitingAdminApproval) && pa.receipt.isNone) = []) := by
  constructor
  · exact fun pa h => (reachable_inv pa h).1
  · intro pas hall
    rw [List.filter_eq_nil_iff]
    intro pa hmem
    have hinv := (reachable_inv pa (hall pa hmem)).1
    by_cases hs : pa.status = PaStatus.awaitingAdminApproval
    · have hrec := hinv hs
      cases hx : pa.receipt with
      | none => rw [hx] at hrec; simp at hrec
      | some v => simp [hs, hx]
    · simp [hs]

/-- Fresh PaymentAttempt used by the reachability witnesses. -/
def demoAttempt0 : PaymentAttempt := PaymentAttempt.init 1 2 500

/-- The attempt after the payment is started. -/
def demoAttempt1 : PaymentAttempt :=
  { orderId := 1
    userId := 2
    amount := 500
    status := PaStatus.pendingPayment
    receipt := none
    adminReviewer := none
    adminDecision := none }

/-- The attempt after the receipt upload. -/
def demoAttempt2 : PaymentAttempt :=
  { orderId := 1
    userId := 2
    amount := 500
    status := PaStatus.awaitingAdminApproval
    receipt := some { imageRef := "img.png", fileName := "img", uploadedAt := 10 }
    adminReviewer := none
    adminDecision := none }

/-- The attempt after the admin approval. -/
def demoAttempt3 : PaymentAttempt :=
  { orderId := 1
    userId := 2
    amount := 500
    status := PaStatus.paid
    receipt := some { imageRef := "img.png", fileName := "img", uploadedAt := 10 }
    adminReviewer := some "admin1"
    adminDecision := none }

/-- The demo attempt in awaitingAdminApproval is reachable. -/
theorem demoAttempt2_reachable : ReachablePa demoAttempt2 :=
  ReachablePa.step demoAttempt1 demoAttempt2
    (PaEvent.uploadReceipt (some "img.png") (some "img") (some 10))
    (ReachablePa.step demoAttempt0 demoAttempt1 PaEvent.startPayment
      (ReachablePa.init 1 2 500) rfl)
    rfl

/-- The demo attempt in paid is reachable. -/
theorem demoAttempt3_reachable : ReachablePa demoAttempt3 :=
  ReachablePa.step demoAttempt2 demoAttempt3
    (PaEvent.approveBy (some "admin1")) demoAttempt2_reachable rfl

/-- Witness for C4: the concrete reachable attempt awaiting admin
approval carries a receipt. -/
theorem awaitingApproval_receipt_nonnull_witness :
    demoAttempt2.receipt.isSome = true :=
  awaitingApproval_receipt_nonnull.1 demoAttempt2 demoAttempt2_reachable rfl

/-- C5: every reachable PaymentAttempt in status paid records an admin
reviewer, and the approve transition with a missing reviewer is
rejected on every attempt. -/
theorem paid_requires_reviewer :
    (∀ pa : PaymentAttempt, ReachablePa pa →
        pa.status = PaStatus.paid → pa.adminReviewer.isSome = true) ∧
    (∀ pa : PaymentAttempt, paStep pa (PaEvent.approveBy none) = none) := by
  constructor
  · exact fun pa h => (reachable_inv pa h).2
  · intro pa
    simp only [paStep]
    split <;> rfl

/-- Witness for C5: the concrete reachable paid attempt records the
reviewer, and the reviewerless approval of the concrete awaiting
attempt is rejected. -/
theorem paid_requires_reviewer_witness :
    demoAttempt3.adminReviewer.isSome = true ∧
    paStep demoAttempt2 (PaEvent.approveBy none) = none :=
  ⟨paid_requires_reviewer.1 demoAttempt3 demoAttempt3_reachable rfl,
   paid_requires_reviewer.2 demoAttempt2⟩

/-- C2: createCheckout is idempotent per (user, idempotencyKey): when a
not-expired order already exists for the key it is returned unchanged
with the store untouched, and replaying a successful checkout returns
the very same order without creating another one. -/
theorem createCheckout_idempotent (st : Store) (cart : Cart) (key : String) :
    (∀ o : Order, findExisting st.orders cart.userId key = some o →
        createCheckout st cart key = Except.ok (o, st)) ∧
    (∀ (o : Order) (st' : Store), createCheckout st cart key = Except.ok (o, st') →
        createCheckout st' cart key = Except.ok (o, st')) := by
  constructor
  · intro o hf
    simp [createCheckout, hf]
  · intro o st' h
    unfold createCheckout at h ⊢
    cases hf : findExisting st.orders cart.userId key with
    | some o0 =>
        rw [hf] at h
        cases h
        rw [hf]
    | none =>
        rw [hf] at h
        by_cases hc : cart.id = 0
        · simp [Order.create, hc] at h
        · simp only [Order.create, if_neg hc] at h
          cases h
          simp only [findExisting, List.find?_cons, beq_self_eq_true, Bool.and_self,
            Bool.and_true, Bool.true_and]
          rfl

/-- Cart used by the checkout idempotency witness. -/
def demoCartC2 : Cart :=
  { id := 3, userId := 7, items := [], expiresAt := 100 }

/-- Order produced by the first checkout of the idempotency witness. -/
def demoOrderC2 : Order :=
  { id := 11
    cartId := 3
    userId := 7
    idempotencyKey := "pay-1"
    snapshot := []
    total := 0
    status := OrderStatus.pendingPayment }

/-- Empty store before the first checkout of the idempotency witness. -/
def demoStoreC2a : Store := { orders := [], nextId := 11 }

/-- Store after the first checkout of the idempotency witness. -/
def demoStoreC2b : Store := { orders := [demoOrderC2], nextId := 12 }

/-- Witness for C2: a concrete first checkout creates one order and a
replay with the same idempotency key returns the same order with the
store untouched. -/
theorem createCheckout_idempotent_witness :
    createCheckout demoStoreC2a demoCartC2 "pay-1" = Except.ok (demoOrderC2, demoStoreC2b) ∧
    createCheckout demoStoreC2b demoCartC2 "pay-1" = Except.ok (demoOrderC2, demoStoreC2b) := by
  have h1 : createCheckout demoStoreC2a demoCartC2 "pay-1" =
      Except.ok (demoOrderC2, demoStoreC2b) := rfl
  exact ⟨h1, (createCheckout_idempotent demoStoreC2a demoCartC2 "pay-1").2
    demoOrderC2 demoStoreC2b h1⟩

/-- C9: for a cart that passes validateForCheckout, a fresh checkout
persists an order whose total is the sum of the snapshot prices of the
cart items, whose snapshot is the cart items, and whose status is
pendingPayment. -/
theorem checkout_total_and_status (st : Store) (cart : Cart) (key : String)
    (now tolerance : Nat) (livePrice : Nat → Option Nat)
    (_hval : validateForCheckout cart now livePrice tolerance = Except.ok ())
    (hid : cart.id ≠ 0)
    (hfresh : findExisting st.orders cart.userId key = none) :
    (createCheckout st cart key).toOption.map
        (fun p => (p.1.total, p.1.status, p.1.snapshot)) =
      some (cartTotal cart.items, OrderStatus.pendingPayment, cart.items) := by
  unfold createCheckout
  rw [hfresh]
  unfold Order.create
  rw [if_neg hid]
  rfl

/-- First cart item of the C9 scenario: course A priced 100000. -/
def demoItemA : CartItem :=
  { courseId := 1
    snapshot := { title := "A", thumbnail := "a.png", instructorName := "N", price := 100000 } }

/-- Second cart item of the C9 scenario: course B priced 50000. -/
def demoItemB : CartItem :=
  { courseId := 2
    snapshot := { title := "B", thumbnail := "b.png", instructorName := "N", price := 50000 } }

/-- Cart of the C9 scenario holding the two priced items. -/
def demoCartC9 : Cart :=
  { id := 4, userId := 8, items := [demoItemA, demoItemB], expiresAt := 1000 }

/-- Live price lookup agreeing with the snapshots of the C9 scenario. -/
def demoLive : Nat → Option Nat :=
  fun c => if c = 1 then some 100000 else if c = 2 then some 50000 else none

/-- Empty store of the C9 scenario. -/
def demoStoreC9 : Store := { orders := [], nextId := 1 }

/-- Witness for C9: the scenario cart with items priced 100000 and
50000 passes validation and checks out to an order with total 150000
and status pendingPayment. -/
theorem checkout_total_and_status_witness :
    validateForCheckout demoCartC9 5 demoLive 0 = Except.ok () ∧
    (createCheckout demoStoreC9 demoCartC9 "k9").toOption.map
        (fun p => (p.1.total, p.1.status, p.1.snapshot)) =
      some (150000, OrderStatus.pendingPayment, demoCartC9.items) := by
  have h := checkout_total_and_status demoStoreC9 demoCartC9 "k9" 5 0 demoLive
    (by rfl) (by decide) (by rfl)
  exact ⟨by rfl, h⟩

/-- The guarded insert establishes the enrollment it targets. -/
theorem enrolled_ensure_self (es : List Enrollment) (u c : Nat) :
    enrolled (ensureEnrollment es u c) u c = true := by
  unfold ensureEnrollment
  split
  · assumption
  · simp [enrolled, List.any_append]

/-- The guarded insert preserves any enrollment already present. -/
theorem enrolled_ensure_mono (es : List Enrollment) (u c v d : Nat)
    (h : enrolled es u c = true) :
    enrolled (ensureEnrollment es v d) u c = true := by
  unfold ensureEnrollment
  split
  · exact h
  · simp [enrolled, List.any_append] at h ⊢
    exact Or.inl h

/-- Enrolling a list of courses preserves any enrollment already
present. -/
theorem enrolled_enrollAll_mono (u v d : Nat) :
    ∀ (cs : List Nat) (es : List Enrollment), enrolled es v d = true →
      enrolled (enrollAll u es cs) v d = true := by
  intro cs
  induction cs with
  | nil => intro es h; exact h
  | cons c cs ih =>
      intro es h
      exact ih (ensureEnrollment es u c) (enrolled_ensure_mono es v d u c h)

/-- After enrolling a list of courses, every course of the list is
enrolled for the user. -/
theorem enrolled_enrollAll_mem (u : Nat) :
    ∀ (cs : List Nat) (es : List Enrollment) (c : Nat), c ∈ cs →
      enrolled (enrollAll u es cs) u c = true := by
  intro cs
  induction cs with
  | nil => intro es c h; cases h
  | cons c' cs ih =>
      intro es c h
      rcases List.mem_cons.mp h with h1 | h2
      · subst h1
        exact enrolled_enrollAll_mono u u c cs (ensureEnrollment es u c)
          (enrolled_ensure_self es u c)
      · exact ih (ensureEnrollment es u c') c h2

/-- C6: the Paid transition and enrollment creation are atomic: for
every admin approval either the attempt status has become paid and an
active enrollment exists for every course of the order, or the state
is unchanged. -/
theorem approve_atomic (st : WorkflowState) (reviewer : Option String) :
    ((adminApprove st reviewer).2.attempt.status = PaStatus.paid ∧
      ∀ c ∈ st.courseIds,
        enrolled (adminApprove st reviewer).2.enrollments st.attempt.userId c = true) ∨
    (adminApprove st reviewer).2 = st := by
  unfold adminApprove
  split
  · cases reviewer with
    | none => right; rfl
    | some r =>
        left
        constructor
        · rfl
        · intro c hc
          exact enrolled_enrollAll_mem st.attempt.userId st.courseIds st.enrollments c hc
  · right; rfl

/-- Workflow state of the approval demos: a reachable attempt awaiting
admin approval for an order of two courses, with no enrollments yet. -/
def demoStateC6 : WorkflowState :=
  { attempt := demoAttempt2
    courseIds := [1, 2]
    enrollments := [] }

/-- Witness for C6: approving the demo state marks the attempt paid
and an active enrollment exists for course 1. -/
theorem approve_atomic_witness :
    (adminApprove demoStateC6 (some "admin1")).2.attempt.status = PaStatus.paid ∧
    enrolled (adminApprove demoStateC6 (some "admin1")).2.enrollments 2 1 = true := by
  have h := (approve_atomic demoStateC6 (some "admin1")).resolve_right (by decide)
  exact ⟨h.1, h.2 1 (by decide)⟩

/-- Appending one enrollment adds its own contribution to the active
count. -/
theorem countActive_append (es : List Enrollment) (e : Enrollment) (u c : Nat) :
    countActive (es ++ [e]) u c =
      countActive es u c + (if e.userId == u && e.courseId == c && e.active then 1 else 0) := by
  induction es with
  | nil => simp [countActive]
  | cons x tl ih => simp [countActive, ih]; omega

/-- A (user, course) pair is enrolled exactly when its active count is
positive. -/
theorem enrolled_iff_countActive_pos (es : List Enrollment) (u c : Nat) :
    enrolled es u c = true ↔ 0 < countActive es u c := by
  induction es with
  | nil => simp [enrolled, countActive]
  | cons e tl ih =>
      simp only [enrolled] at ih
      by_cases he : (e.userId == u && e.courseId == c && e.active) = true
      · simp [enrolled, countActive, List.any_cons, he]
      · simp [enrolled, countActive, List.any_cons, he, ih]

/-- The guarded insert for the same pair leaves the active count at one
when the pair was unenrolled, and unchanged otherwise. -/
theorem countActive_ensure_self (es : List Enrollment) (u c : Nat) :
    countActive (ensureEnrollment es u c) u c =
      if enrolled es u c then countActive es u c else countActive es u c + 1 := by
  unfold ensureEnrollment
  split
  · rfl
  · rw [countActive_append]
    simp

/-- The guarded insert for a different course does not change the
active count of the pair. -/
theorem countActive_ensure_ne (es : List Enrollment) (u c d : Nat) (hdc : d ≠ c) :
    countActive (ensureEnrollment es u d) u c = countActive es u c := by
  unfold ensureEnrollment
  split
  · rfl
  · rw [countActive_append]
    have : (d == c) = false := by
      simp [hdc]
    simp [this]

/-- Enrolling a list of courses never pushes an active count above
one. -/
theorem countActive_enrollAll_le_one (u c : Nat) :
    ∀ (cs : List Nat) (es : List Enrollment), countActive es u c ≤ 1 →
      countActive (enrollAll u es cs) u c ≤ 1 := by
  intro cs
  induction cs with
  | nil => intro es h; exact h
  | cons d cs ih =>
      intro es h
      apply ih
      by_cases hdc : d = c
      · subst hdc
        rw [countActive_ensure_self]
        split
        · exact h
        · next hne =>
            have h0 : countActive es u d = 0 := by
              by_contra hpos
              exact hne ((enrolled_iff_countActive_pos es u d).mpr (Nat.pos_of_ne_zero hpos))
            omega
      · rw [countActive_ensure_ne es u c d hdc]
        exact h

/-- C7: approving the same attempt twice leaves exactly one active
enrollment for a (user, course) pair of the order: the first approval
creates it, and the second approval observes the attempt already
settled and is a no-op. -/
theorem double_approval_single_enrollment (st : WorkflowState) (r : String) (c : Nat)
    (hstatus : st.attempt.status = PaStatus.awaitingAdminApproval)
    (hmem : c ∈ st.courseIds)
    (hnone : countActive st.enrollments st.attempt.userId c = 0) :
    countActive (adminApprove (adminApprove st (some r)).2 (some r)).2.enrollments
        st.attempt.userId c = 1 ∧
    (adminApprove (adminApprove st (some r)).2 (some r)).1 =
      ApproveResult.alreadySettled := by
  have hfirst : (adminApprove st (some r)).2 =
      { attempt := { st.attempt with status := PaStatus.paid, adminReviewer := some r }
        courseIds := st.courseIds
        enrollments := enrollAll st.attempt.userId st.enrollments st.courseIds } := by
    unfold adminApprove
    rw [if_pos hstatus]
  have hsecond : adminApprove (adminApprove st (some r)).2 (some r) =
      (ApproveResult.alreadySettled, (adminApprove st (some r)).2) := by
    rw [hfirst]
    unfold adminApprove
    split
    · next hcond => exact absurd hcond (by simp)
    · rfl
  rw [hsecond, hfirst]
  refine ⟨?_, rfl⟩
  show countActive (enrollAll st.attempt.userId st.enrollments st.courseIds)
    st.attempt.userId c = 1
  have hle : countActive (enrollAll st.attempt.userId st.enrollments st.courseIds)
      st.attempt.userId c ≤ 1 :=
    countActive_enrollAll_le_one st.attempt.userId c st.courseIds st.enrollments
      (by omega)
  have hpos : 0 < countActive (enrollAll st.attempt.userId st.enrollments st.courseIds)
      st.attempt.userId c :=
    (enrolled_iff_countActive_pos _ _ _).mp
      (enrolled_enrollAll_mem st.attempt.userId st.courseIds st.enrollments c hmem)
  omega

/-- Witness for C7: in the concrete approval state, approving twice
leaves exactly one active enrollment for (user 2, course 1), the
second call being the settled no-op. -/
theorem double_approval_single_enrollment_witness :
    countActive
        (adminApprove (adminApprove demoStateC6 (some "admin1")).2 (some "admin1")).2.enrollments
        demoStateC6.attempt.userId 1 = 1 ∧
    (adminApprove (adminApprove demoStateC6 (some "admin1")).2 (some "admin1")).1 =
      ApproveResult.alreadySettled :=
  double_approval_single_enrollment demoStateC6 "admin1" 1 (by decide) (by decide) (by decide)

/-- Published course of the addCourse demos. -/
def demoCourse : Course :=
  { id := 1
    title := "Algebra"
    thumbnail := "alg.png"
    instructorName := "N"
    price := 100
    published := true }

/-- Catalog of the addCourse demos: one published course, no
enrollments. -/
def demoCatalogC8 : Catalog := { courses := [demoCourse], enrollments := [] }

/-- Empty cart of the addCourse demos. -/
def demoCartC8 : Cart := { id := 5, userId := 9, items := [], expiresAt := 50 }

/-- Cart after the course has been added once. -/
def demoCartC8b : Cart :=
  { id := 5, userId := 9, items := [snapshotItem demoCourse], expiresAt := 50 }

/-- C8 counterexample: adding the same course a second time is not a
no-op success — addCourse reports the duplicateCartItem validation
error (as sections 4.1 and 7 of the specification list it among the
failure cases), although the cart indeed keeps exactly one item for
the course. -/
theorem addCourse_second_call_errors :
    addCourse demoCatalogC8 demoCartC8 1 = Except.ok demoCartC8b ∧
    addCourse demoCatalogC8 demoCartC8b 1 = Except.error WorkflowError.duplicateCartItem ∧
    countCourse demoCartC8b 1 = 1 :=
  ⟨rfl, rfl, rfl⟩

/-- C8 (amended): after a successful addCourse, the cart holds exactly
one item for the course, the cart held none before, and a second
identical addCourse is rejected with the duplicateCartItem error,
adding nothing. -/
theorem addCourse_duplicate_rejected (ctx : Catalog) (cart : Cart) (courseId : Nat)
    (cart' : Cart) (h : addCourse ctx cart courseId = Except.ok cart') :
    addCourse ctx cart' courseId = Except.error WorkflowError.duplicateCartItem ∧
    countCourse cart' courseId = 1 ∧ countCourse cart courseId = 0 := by
  unfold addCourse at h
  cases hfind : ctx.courses.find? (fun c => c.id == courseId) with
  | none => rw [hfind] at h; cases h
  | some course =>
      rw [hfind] at h
      have hcid : course.id = courseId := by
        have := List.find?_some hfind
        simpa using this
      by_cases hpub : (!course.published) = true
      · simp only [if_pos hpub] at h
        cases h
      · simp only [if_neg hpub] at h
        by_cases hdup : (cart.items.any fun it => it.courseId == courseId) = true
        · simp only [if_pos hdup] at h
          cases h
        · simp only [if_neg hdup] at h
          by_cases henr : enrolled ctx.enrollments cart.userId courseId = true
          · simp only [if_pos henr] at h
            cases h
          · simp only [if_neg henr] at h
            cases h
            have hduf : (cart.items.any fun it => it.courseId == courseId) = false := by
              simpa using hdup
            have hfil : cart.items.filter (fun it => it.courseId == courseId) = [] := by
              rw [List.filter_eq_nil_iff]
              intro it hit hp
              have hany : (cart.items.any fun it => it.courseId == courseId) = true :=
                List.any_eq_true.mpr ⟨it, hit, hp⟩
              rw [hduf] at hany
              cases hany
            refine ⟨?_, ?_, ?_⟩
            · unfold addCourse
              rw [hfind]
              have hany : ((cart.items ++ [snapshotItem course]).any
                  fun it => it.courseId == courseId) = true := by
                rw [List.any_append]
                simp [snapshotItem, hcid]
              have hpubT : course.published = true := by
                simpa using hpub
              simp [hpubT, hany]
            · show ((cart.items ++ [snapshotItem course]).filter
                  (fun it => it.courseId == courseId)).length = 1
              rw [List.filter_append, hfil]
              simp [snapshotItem, hcid]
            · show (cart.items.filter (fun it => it.courseId == courseId)).length = 0
              rw [hfil]
              rfl

/-- Witness for C8 (amended): for the concrete catalog and cart, the
second identical addCourse is rejected with duplicateCartItem and the
cart holds exactly one item for the course. -/
theorem addCourse_duplicate_rejected_witness :
    addCourse demoCatalogC8 demoCartC8b 1 = Except.error WorkflowError.duplicateCartItem ∧
    countCourse demoCartC8b 1 = 1 := by
  have h := addCourse_duplicate_rejected demoCatalogC8 demoCartC8 1 demoCartC8b rfl
  exact ⟨h.1, h.2.1⟩

end Pardis
